import Mathlib

/-!
Verification development for the schema-driven NetCDF serialization core of
`sail_hp_src/write_outnc.py`.

The Python functions are shallowly embedded as executable Lean definitions:
  * attribute parsing (`_parse_attribute_value`)            → `parse_attribute_value`
  * global-attribute resolution (`_update_dod_globals`)     → `update_dod_globals`
  * time standardization (`_get_standardized_times`)        → `get_standardized_times`
  * time-attribute injection (`_update_dod_time_attributes`)→ `update_dod_time_attributes`
  * structural pass (`_create_nc_structure`)                → `create_nc_structure`
  * value pass (`_write_dataset_to_file`)                   → `write_dataset_to_file`
  * driver (`write_ds_to_nc`)                               → `write_ds_to_nc`

Modelling conventions:
  * Python dicts become ordered association lists `List (String × _)` with
    dict-assignment modelled by `setKey` (update in place, or append).
  * Python exceptions become `Option`/`Except`/an error component of the result.
  * numpy `datetime64` timestamps are modelled at millisecond resolution as an
    integer count of milliseconds since the Unix epoch (captures the fractional
    seconds that the code manipulates); float values are modelled as `ℚ`
    (binary floating-point rounding is abstracted away — no claim below is
    about rounding at the precision limit).
  * In-place mutation of a caller-owned dict (the config in
    `_update_dod_globals`) is modelled by returning the dict's post-call state
    as an explicit result component.
-/

namespace WriteOutNc

/-! ## Association-list primitives (Python `dict` operations) -/

/-- Python `d[k] = v` on a dict: overwrite in place if the key exists
(keeping its position), otherwise append. -/
def setKey {α : Type} : List (String × α) → String → α → List (String × α)
  | [], k, v => [(k, v)]
  | (k0, v0) :: rest, k, v =>
    if k0 = k then (k, v) :: rest else (k0, v0) :: setKey rest k v

/-- Python `d.pop(k, None)`'s removal effect: drop every binding of `k`
(dict keys are unique, so at most one binding exists in practice). -/
def removeKey {α : Type} (l : List (String × α)) (k : String) : List (String × α) :=
  l.filter (fun p => p.1 != k)

/-! ## Attribute values

A parsed DOD attribute value: a Python `str`, `int`, `float`, a tuple of ints
(`flag_values:short = 1, 2, 3`), or — only as injected time metadata — an
array of floats. -/

inductive AttrValue where
  | str (s : String)
  | int (n : Int)
  | float (q : ℚ)
  | ints (l : List Int)
  | floats (l : List ℚ)
deriving DecidableEq

/-- Python truthiness of an attribute value (`if fill:` in
`_create_nc_structure`): empty string, zero and empty tuple are falsy. -/
def pyTruthy : AttrValue → Bool
  | .str s => s != ""
  | .int n => n != 0
  | .float q => q != 0
  | .ints l => !l.isEmpty
  | .floats l => !l.isEmpty

/-! ## String primitives used by the parser -/

/-- `value_str.strip('"')`: remove every leading and trailing `"` character. -/
def stripQuotes (s : String) : String :=
  String.mk (((s.toList.dropWhile (· = '"')).reverse.dropWhile (· = '"')).reverse)

/-- Python's `c in s` membership test on a string. -/
def containsChar (s : String) (c : Char) : Bool :=
  s.toList.contains c

/-- Python `s.strip()`: remove leading and trailing whitespace. -/
def pyStrip (s : String) : String :=
  String.mk (((s.toList.dropWhile Char.isWhitespace).reverse.dropWhile
    Char.isWhitespace).reverse)

/-- Python `s.split(',')`. -/
def splitCommaAux : List Char → List Char → List String
  | [], acc => [String.mk acc.reverse]
  | c :: rest, acc =>
    if c = ',' then String.mk acc.reverse :: splitCommaAux rest []
    else splitCommaAux rest (c :: acc)

/-- Python `s.split(',')`. -/
def splitComma (s : String) : List String :=
  splitCommaAux s.toList []

/-- `tuple(f(x) for x in xs)` where `f` may raise: fail on the first error. -/
def mapIntList (f : String → Option Int) : List String → Option (List Int)
  | [] => some []
  | x :: rest =>
    match f x, mapIntList f rest with
    | some n, some l => some (n :: l)
    | _, _ => none

/-- `key.rsplit(':', 1)` for a key known to contain `':'`: split at the last
colon.  If no colon is present the whole key is returned with an empty hint
(that branch is unreachable behind the `':' in key` test). -/
def rsplitColon (key : String) : String × String :=
  match (key.toList.reverse.span (· ≠ ':')) with
  | (hintRev, []) => (String.mk hintRev.reverse, "")
  | (hintRev, _ :: nameRev) => (String.mk nameRev.reverse, String.mk hintRev.reverse)

/-- Digit-string value, `none` if empty or containing a non-digit. -/
def digitsVal : List Char → Option Nat
  | [] => none
  | c :: rest =>
    if c.isDigit then
      match rest with
      | [] => some (c.toNat - '0'.toNat)
      | _ :: _ =>
        (digitsVal rest).map (fun n => (c.toNat - '0'.toNat) * 10 ^ rest.length + n)
    else none

/-- Python `int(s)`: optional surrounding whitespace, optional sign, decimal
digits.  (Underscore separators and non-ASCII digits are not modelled; they do
not occur in DOD files.)  `none` models the `ValueError` raised otherwise. -/
def pyIntOfString (s : String) : Option Int :=
  match (pyStrip s).toList with
  | '-' :: rest => (digitsVal rest).map (fun n => -(n : Int))
  | '+' :: rest => (digitsVal rest).map (fun n => (n : Int))
  | cs => (digitsVal cs).map (fun n => (n : Int))

/-- Value of a possibly-empty digit string together with its length. -/
def fracVal (cs : List Char) : Option ℚ :=
  if cs.isEmpty then some 0
  else (digitsVal cs).map (fun n => (n : ℚ) / (10 : ℚ) ^ cs.length)

/-- Unsigned decimal with optional fraction part: `123`, `123.`, `.5`, `1.25`.
At least one digit must be present overall. -/
def decimalVal (cs : List Char) : Option ℚ :=
  match cs.span Char.isDigit with
  | (ip, []) => (digitsVal ip).map (fun n => (n : ℚ))
  | (ip, '.' :: fp) =>
    if ip.isEmpty ∧ fp ≠ [] then
      (fracVal fp).map id |>.bind (fun f => if fp.all Char.isDigit then some f else none)
    else if ip ≠ [] then
      (digitsVal ip).bind (fun n =>
        if fp.all Char.isDigit then (fracVal fp).map (fun f => (n : ℚ) + f) else none)
    else none
  | _ => none

/-- Python `float(s)` restricted to plain decimal notation (optional sign,
digits, optional decimal point).  Exponent notation, `inf` and `nan` are not
modelled; they do not occur in DOD attribute values.  `none` models the
`ValueError` raised on non-numeric input. -/
def pyFloatOfString (s : String) : Option ℚ :=
  match (pyStrip s).toList with
  | '-' :: rest => (decimalVal rest).map Neg.neg
  | '+' :: rest => decimalVal rest
  | cs => decimalVal cs

/-! ## `_parse_attribute_value` -/

/-- Embedding of `_parse_attribute_value(key, value_str)`: strip whitespace
and surrounding quotes from the value; if the key carries a `:hint` suffix,
split it off and parse the value according to the hint; otherwise return the
key and cleaned value unchanged.  `none` models an uncaught `ValueError` from
`int()`/`float()`. -/
def parse_attribute_value (key value_str : String) : Option (String × AttrValue) :=
  let value := stripQuotes (pyStrip value_str)
  if containsChar key ':' then
    let attr_name := (rsplitColon key).1
    let type_hint := (rsplitColon key).2
    if type_hint = "float" then
      (pyFloatOfString value).map (fun q => (attr_name, AttrValue.float q))
    else if type_hint = "double" then
      (pyFloatOfString value).map (fun q => (attr_name, AttrValue.float q))
    else if type_hint = "short" ∨ type_hint = "int" then
      if containsChar value ',' then
        (mapIntList (fun x => pyIntOfString (pyStrip x)) (splitComma value)).map
          (fun l => (attr_name, AttrValue.ints l))
      else
        (pyIntOfString value).map (fun n => (attr_name, AttrValue.int n))
    else if type_hint = "byte" then
      (pyIntOfString value).map (fun n => (attr_name, AttrValue.int n))
    else
      some (attr_name, AttrValue.str value)
  else
    some (key, AttrValue.str value)

/-! ## `_update_dod_globals` (the Attribute Resolver)

The function reads ambient process state (`sys.argv`, `datetime.utcnow()`,
`uname -n`); that environment is passed explicitly.  The Python code writes
the two derived keys **directly into the caller's config dict** (no copy is
taken); the embedding therefore returns the config's post-call state as the
first component of the result.  Config values are modelled as strings, so the
`str(config[key])` conversion is the identity. -/

structure Env where
  /-- `sys.argv`. -/
  argv : List String
  /-- `datetime.utcnow().strftime("%Y-%m-%d %H:%M:%S UTC")`. -/
  utcNow : String
  /-- Output of `uname -n`, or `"unknown"` if the subprocess call failed. -/
  hostname : String
deriving DecidableEq

/-- `" ".join(sys.argv) if hasattr(sys, "argv") and len(sys.argv) > 0 else "notebook"`. -/
def commandLineOf (env : Env) : String :=
  if env.argv.length > 0 then String.intercalate " " env.argv else "notebook"

/-- `f"created on {current_time} on {system_info}"`. -/
def historyOf (env : Env) : String :=
  "created on " ++ env.utcNow ++ " on " ++ env.hostname

/-- The resolution loop of `_update_dod_globals`: walk the global attributes
in schema order; an attribute whose value is the empty string is filled from
the config when the key is present, otherwise its name is accumulated into
the `missing` list (in iteration order).  Returns (new globals, missing). -/
def resolveGlobalsList (cfg : List (String × String)) :
    List (String × String) → List (String × String) × List String
  | [] => ([], [])
  | (k, v) :: rest =>
    let r := resolveGlobalsList cfg rest
    if v = "" then
      match List.lookup k cfg with
      | some cv => ((k, cv) :: r.1, r.2)
      | none => ((k, v) :: r.1, k :: r.2)
    else
      ((k, v) :: r.1, r.2)

/-- Embedding of `_update_dod_globals(dod, config)` restricted to its two
inputs of interest: the schema's global-attribute list and the config dict.
Result: (state of the caller's config dict after the call,
`ok` resolved globals or `error` with the names the `ValueError` reports). -/
def update_dod_globals (env : Env) (globals0 : List (String × String))
    (config : List (String × String)) :
    List (String × String) × Except (List String) (List (String × String)) :=
  let config1 := setKey config "command_line" (commandLineOf env)
  let config2 := setKey config1 "history" (historyOf env)
  let r := resolveGlobalsList config2 globals0
  (config2, if r.2.isEmpty then Except.ok r.1 else Except.error r.2)

/-! ## `_get_standardized_times` (the Time Normalizer)

The input timestamp `ds.time.values[0]` is modelled as `tms : Int`,
milliseconds since 1970-01-01T00:00:00Z (enough resolution to capture the
fractional seconds the code handles; no claim concerns sub-millisecond
precision).  Floor division by a positive constant (`Int.ediv`) models
numpy's `datetime64` unit truncation; `Int.tdiv` (truncation toward zero)
models Python's `int()` applied to the float division result. -/

/-- Wrap an integer to numpy's signed 32-bit range, modelling `np.int32(x)`
(C-style wraparound; NumPy ≥ 2.0 raises `OverflowError` instead of wrapping —
either way the value is not the original integer once it leaves the range). -/
def toInt32 (n : Int) : Int := (n + 2 ^ 31) % 2 ^ 32 - 2 ^ 31

/-- Days-since-epoch → proleptic Gregorian (year, month, day), the civil
calendar conversion performed by `datetime64 → datetime`. -/
def civilFromDays (day : Int) : Int × Int × Int :=
  let z := day + 719468
  let era := Int.ediv z 146097
  let doe := z - era * 146097
  let yoe := Int.ediv (doe - Int.ediv doe 1460 + Int.ediv doe 36524 - Int.ediv doe 146096) 365
  let doy := doe - (365 * yoe + Int.ediv yoe 4 - Int.ediv yoe 100)
  let mp := Int.ediv (5 * doy + 2) 153
  let d := doy - Int.ediv (153 * mp + 2) 5 + 1
  let m := if mp < 10 then mp + 3 else mp - 9
  let y := yoe + era * 400 + (if m ≤ 2 then 1 else 0)
  (y, m, d)

/-- Zero-pad to two digits (`%H`, `%M`, `%S`, `%m`, `%d`). -/
def pad2 (n : Int) : String := if n < 10 then "0" ++ toString n else toString n

/-- `%Y` for the four-digit years that occur in the data. -/
def pad4 (n : Int) : String :=
  if n < 10 then "000" ++ toString n
  else if n < 100 then "00" ++ toString n
  else if n < 1000 then "0" ++ toString n
  else toString n

/-- `%Y-%m-%d` of an epoch-seconds instant. -/
def fmtDate (s : Int) : String :=
  let ymd := civilFromDays (Int.ediv s 86400)
  pad4 ymd.1 ++ "-" ++ pad2 ymd.2.1 ++ "-" ++ pad2 ymd.2.2

/-- `%H:%M:%S` of an epoch-seconds instant. -/
def fmtClock (s : Int) : String :=
  let sod := Int.emod s 86400
  pad2 (Int.ediv sod 3600) ++ ":" ++ pad2 (Int.ediv (Int.emod sod 3600) 60)
    ++ ":" ++ pad2 (Int.emod sod 60)

/-- `dt.strftime("%Y-%m-%d %H:%M:%S 0:00")` for epoch-seconds `s`. -/
def strftimeScan (s : Int) : String :=
  fmtDate s ++ " " ++ fmtClock s ++ " 0:00"

/-- `dt.strftime("%Y-%m-%d 00:00:00 0:00")` for epoch-seconds `s`. -/
def strftimeMidnight (s : Int) : String :=
  fmtDate s ++ " 00:00:00 0:00"

/-- The triple produced by `_get_standardized_times`. -/
structure StdTimes where
  /-- `np.int32(int((t64 - epoch) / 1s))`. -/
  base_time_value : Int
  base_time_string : String
  base_time_units : String
  /-- `np.array([0.0])`. -/
  time_offset_value : List ℚ
  time_offset_units : String
  /-- `np.array([(t64 - midnight64) / 1s])`. -/
  time_value : List ℚ
  time_units : String
  time_string : String
deriving DecidableEq

/-- Embedding of `_get_standardized_times`.  `dt` is `t64` truncated to whole
seconds (`astype("datetime64[s]")` floors).  `midnight` is
`datetime(dt.year, dt.month, dt.day, tzinfo=utc)` — the start of `dt`'s UTC
calendar day, which in the proleptic Gregorian calendar without leap seconds
is exactly `dt` floored to a multiple of 86400 s; it is embedded in that
arithmetic form. -/
def get_standardized_times (tms : Int) : StdTimes :=
  let dt := Int.ediv tms 1000
  let base_time_val := Int.tdiv tms 1000
  let midnight := 86400 * Int.ediv dt 86400
  let time_since_midnight : ℚ := ((tms : ℚ) - (midnight : ℚ) * 1000) / 1000
  let scan_time_str := strftimeScan dt
  { base_time_value := toInt32 base_time_val
    base_time_string := scan_time_str
    base_time_units := "seconds since 1970-1-1 0:00:00 0:00"
    time_offset_value := [0]
    time_offset_units := "seconds since " ++ scan_time_str
    time_value := [time_since_midnight]
    time_units := "seconds since " ++ strftimeMidnight dt
    time_string := scan_time_str }

/-! ## Data model for the Dataset Writer -/

/-- One element of a numpy array flowing through the value pass: a numeric
value, the floating NaN sentinel, a `cftime` datetime object (the "time-like"
values the writer must reject), or — in degenerate fill situations — a
string. -/
inductive Elem where
  | num (q : ℚ)
  | nan
  | cftime (t : Int)
  | str (s : String)
deriving DecidableEq

/-- `np.isnan` on one element. -/
def isNanElem : Elem → Bool
  | .nan => true
  | _ => false

/-- `"cftime" in str(type(e))`. -/
def isCftimeElem : Elem → Bool
  | .cftime _ => true
  | _ => false

/-- An `xarray` data array: its numpy dtype name, its values, and an optional
per-element validity mask (`True` = masked/invalid).  An array containing a
`cftime` object has dtype `"object"` in numpy; well-formed inputs respect
that. -/
structure DataArray where
  dtype : String
  values : List Elem
  mask : Option (List Bool)
deriving DecidableEq

/-- The slice of an `xarray.Dataset` the writer reads: named data arrays,
numeric dataset-level attributes (`origin_latitude`, …), and the primary
timestamp `ds.time.values[0]` in ms since the epoch. -/
structure Dataset where
  vars : List (String × DataArray)
  attrs : List (String × ℚ)
  timeMs : Int
deriving DecidableEq

/-- A variable entry of a parsed DOD (`_parse_dod` output). -/
structure VarInfo where
  dtype : String
  dims : List String
  attrs : List (String × AttrValue)
deriving DecidableEq

/-- A parsed DOD (`{"dimensions": …, "variables": …, "globals": …}`).
A dimension size of `none` models `UNLIMITED`. -/
structure Dod where
  dimensions : List (String × Option Int)
  /-- The `"variables"` entry of the parsed DOD (`variables` is reserved in Lean). -/
  vars : List (String × VarInfo)
  globals : List (String × String)
deriving DecidableEq

/-- The run configuration: the flat key/value entries used for global
resolution, and the `variable_mapping` table (xarray name → DOD name). -/
structure Config where
  entries : List (String × String)
  variable_mapping : List (String × String)
deriving DecidableEq

/-- A created netCDF variable.  `fillValue` is the fill value bound at
`createVariable` time (netCDF4 then exposes it as the `_FillValue`
attribute, which is what `getattr(var, "_FillValue", None)` reads back). -/
structure NcVar where
  dtype : String
  dims : List String
  fillValue : Option AttrValue
  attrs : List (String × AttrValue)
  data : List Elem
deriving DecidableEq

/-- The open netCDF file handle and its contents. -/
structure NcFile where
  dims : List (String × Option Int)
  globalAttrs : List (String × String)
  vars : List (String × NcVar)
  isOpen : Bool
deriving DecidableEq

/-! ## `_create_nc_structure` (the structural pass) -/

/-- Creation of one variable: `fill = attrs.pop("_FillValue", None)` followed
by `createVariable(..., fill_value=fill) if fill else createVariable(...)`.
Note the truthiness test: a falsy fill value (`0`, `0.0`, `""`) is *not*
bound.  (Aggregate fill values, which netCDF4 would reject at creation, are
modelled as bindable; no DOD uses them.) -/
def createVar (vinfo : VarInfo) : NcVar :=
  let fill := List.lookup "_FillValue" vinfo.attrs
  let attrs2 := removeKey vinfo.attrs "_FillValue"
  let bound := match fill with
    | some f => if pyTruthy f then some f else none
    | none => none
  { dtype := vinfo.dtype, dims := vinfo.dims, fillValue := bound,
    attrs := attrs2, data := [] }

/-- Embedding of `_create_nc_structure(path, dod)`: open the handle, declare
the dimensions, set the resolved global attributes, create every variable. -/
def create_nc_structure (dod : Dod) : NcFile :=
  { dims := dod.dimensions
    globalAttrs := dod.globals
    vars := dod.vars.map (fun p => (p.1, createVar p.2))
    isOpen := true }

/-! ## `_update_dod_time_attributes` -/

/-- The metadata value the `times` dict of `_get_standardized_times` holds
under key `key` for time variable `tname`. -/
def metaAttr (st : StdTimes) (tname key : String) : Option AttrValue :=
  if tname = "base_time" then
    if key = "value" then some (AttrValue.int st.base_time_value)
    else if key = "string" then some (AttrValue.str st.base_time_string)
    else if key = "units" then some (AttrValue.str st.base_time_units)
    else none
  else if tname = "time_offset" then
    if key = "value" then some (AttrValue.floats st.time_offset_value)
    else if key = "units" then some (AttrValue.str st.time_offset_units)
    else none
  else if tname = "time" then
    if key = "value" then some (AttrValue.floats st.time_value)
    else if key = "units" then some (AttrValue.str st.time_units)
    else if key = "string" then some (AttrValue.str st.time_string)
    else none
  else none

/-- Fill the empty (`""`) attribute slots of a time variable from the
standardized-time metadata, never overwriting a non-empty slot. -/
def fillTimeAttrs (st : StdTimes) (tname : String)
    (attrs : List (String × AttrValue)) : List (String × AttrValue) :=
  attrs.map (fun p =>
    if p.2 = AttrValue.str "" then
      match metaAttr st tname p.1 with
      | some v => (p.1, v)
      | none => p
    else p)

/-- The keys of the `times` dict, in Python dict insertion order. -/
def timeNames : List String := ["base_time", "time_offset", "time"]

/-- Embedding of `_update_dod_time_attributes(dod, ds)`. -/
def update_dod_time_attributes (dod : Dod) (tms : Int) : Dod :=
  let st := get_standardized_times tms
  { dod with
    vars := dod.vars.map (fun p =>
      if p.1 ∈ timeNames then
        (p.1, { p.2 with attrs := fillTimeAttrs st p.1 p.2.attrs })
      else p) }

/-! ## `_write_dataset_to_file` (the value pass) -/

/-- The `time_vars` set: variables that must never be written from `ds`. -/
def time_vars : List String := ["time", "time_offset", "base_time"]

/-- The writer's `dtype_map`, from DOD dtype names to numpy dtype names. -/
def dtype_map (dt : String) : Option String :=
  if dt = "float" then some "float32"
  else if dt = "double" then some "float64"
  else if dt = "short" then some "int16"
  else if dt = "int" then some "int32"
  else if dt = "byte" then some "int8"
  else none

/-- numpy's per-dtype default fill sentinel (`np.ma.default_fill_value`):
`1e20` for floats, `999999` for integers, `'?'` for object arrays.  This is
what `np.ma.filled(a, fill_value=None)` substitutes for masked elements when
the array carries the default fill value. -/
def defaultFill (dtype : String) : Elem :=
  if dtype = "float32" ∨ dtype = "float64" then Elem.num (10 ^ 20 : ℚ)
  else if dtype = "object" then Elem.str "?"
  else Elem.num 999999

/-- A bound fill value used as an array element. -/
def fillElem : AttrValue → Elem
  | .int n => Elem.num (n : ℚ)
  | .float q => Elem.num q
  | .str s => Elem.str s
  | .ints _ => Elem.str "invalid-fill"
  | .floats _ => Elem.str "invalid-fill"

/-- Truncation of a rational toward zero (C / numpy float→int cast). -/
def truncQ (q : ℚ) : Int := if 0 ≤ q then ⌊q⌋ else -⌊-q⌋

/-- Wrap to signed two's-complement range of the given bit width. -/
def wrapSigned (bits : Nat) (v : Int) : Int :=
  (v + 2 ^ (bits - 1)) % 2 ^ bits - 2 ^ (bits - 1)

/-- `astype` on one element.  Float targets keep the (abstracted) value;
integer targets truncate toward zero and wrap; NaN cast to an integer type
yields an unspecified value, modelled as the type minimum; a `cftime` object
cannot be converted to a numeric dtype — `none` models the `TypeError`
numpy raises.  (String elements do not occur on this path.) -/
def castElem (target : String) : Elem → Option Elem
  | .num q =>
    if target = "float32" ∨ target = "float64" then some (Elem.num q)
    else
      let bits : Nat := if target = "int8" then 8 else if target = "int16" then 16 else 32
      some (Elem.num ((wrapSigned bits (truncQ q) : Int) : ℚ))
  | .nan =>
    if target = "float32" ∨ target = "float64" then some Elem.nan
    else
      let bits : Nat := if target = "int8" then 8 else if target = "int16" then 16 else 32
      some (Elem.num ((-(2 ^ (bits - 1) : Int) : Int) : ℚ))
  | .cftime _ => none
  | .str _ => none

/-- `data.astype(target_dtype)`: the elementwise cast fails (numpy raises)
as soon as any element is unconvertible. -/
def astypeList (target : String) : List Elem → Option (List Elem)
  | [] => some []
  | e :: rest =>
    match castElem target e, astypeList target rest with
    | some e2, some r => some (e2 :: r)
    | _, _ => none

/-- Overwrite the stored data of variable `n` (`nc.variables[n][:] = d`). -/
def updData (l : List (String × NcVar)) (n : String) (d : List Elem) :
    List (String × NcVar) :=
  l.map (fun p => if p.1 = n then (p.1, { p.2 with data := d }) else p)

/-- `nc.variables[n][:] = d` on the file handle. -/
def updateVarData (nc : NcFile) (n : String) (d : List Elem) : NcFile :=
  { nc with vars := updData nc.vars n d }

/-- The error message of the cftime guard. -/
def cftimeErrMsg (xr_name : String) : String :=
  "Attempted to write cftime object for variable " ++ xr_name
    ++ ". Time variables are not allowed to come from ds."

/-- The `TypeError` numpy raises when `np.isnan` is applied to an
object-dtype array (the ufunc has no object loop). -/
def isnanErrMsg (xr_name : String) : String :=
  "TypeError: isnan not supported on object array for variable " ++ xr_name

/-- The hard conversion failure raised by `astype` (a `TypeError` for a
cftime element; a non-numeric fill sentinel such as the object default
fill string fails the conversion just as hard — exception classes are not
distinguished beyond the message). -/
def astypeErrMsg (xr_name : String) : String :=
  "TypeError: could not convert variable " ++ xr_name

/-- The masked-substitution step of the loop body:
`if hasattr(data, "mask"): data = np.ma.filled(data, fill_value=dod_fill)`.
With `dod_fill = None`, numpy substitutes the masked array's fill value,
which is the dtype-dependent default sentinel. -/
def maskFill (dod_fill : Option AttrValue) (dtype : String)
    (values : List Elem) : Option (List Bool) → List Elem
  | some m =>
    List.zipWith
      (fun v b => if b then
          (match dod_fill with
           | some f => fillElem f
           | none => defaultFill dtype)
        else v) values m
  | none => values

/-- The NaN-substitution step:
`if dod_fill is not None and np.any(np.isnan(data)): data = np.where(...)`.
When a fill value is bound, `np.any(np.isnan(data))` is evaluated first:
on an object-dtype array (any array holding a cftime object) `np.isnan` has
no loop and raises `TypeError` — modelled as `none`.  On numeric dtypes NaN
elements are replaced by the fill value.  When no fill value is bound the
`and` short-circuits: `np.isnan` is never called and the data is unchanged. -/
def nanFill : Option AttrValue → String → List Elem → Option (List Elem)
  | some f, dtype, l =>
    if dtype = "object" then none
    else if l.any isNanElem then
      some (l.map (fun e => if isNanElem e then fillElem f else e))
    else some l
  | none, _, l => some l

/-- The guard `len(data) > 0 and "cftime" in str(type(data.flat[0]))`:
true iff the array is non-empty and its *first* element is a cftime object. -/
def cftimeGuard (l : List Elem) : Bool :=
  decide (0 < l.length) && isCftimeElem (l.headD (Elem.num 0))

/-- The dtype-coercion step: convert when the DOD dtype is in `dtype_map`
and the array's dtype differs.  `none` models the `TypeError` numpy raises
on an unconvertible element. -/
def convertData (dod : Dod) (dod_name arrDtype : String) (l : List Elem) :
    Option (List Elem) :=
  match List.lookup dod_name dod.vars with
  | some vinfo =>
    match dtype_map vinfo.dtype with
    | some target => if arrDtype ≠ target then astypeList target l else some l
    | none => some l
  | none => some l

/-- The mapped-variable loop of `_write_dataset_to_file`, one entry of
`config["variable_mapping"]` at a time.  Faithful step order:
  1. skip silently if the xarray name is absent from `ds` or the DOD name is
     absent from the created variables;
  2. skip silently if the DOD name is one of the three time variables;
  3. masked substitution (`maskFill`, reading the fill value bound to the
     created variable via `getattr(var, "_FillValue", None)`);
  4. NaN substitution (`nanFill`) — which raises `TypeError` when a fill
     value is bound and the array has object dtype, because `np.isnan` has
     no object loop;
  5. the first-element cftime guard (`cftimeGuard`) raising `TypeError`;
  6. dtype coercion (`convertData`), which may also raise;
  7. store the array in the variable (`nc.variables[dod_name][:] = data`).
An error stops the loop and is returned without closing the handle. -/
def writeVars (ds : Dataset) (dod : Dod) :
    List (String × String) → NcFile → NcFile × Option String
  | [], nc => (nc, none)
  | (xr_name, dod_name) :: rest, nc =>
    match List.lookup xr_name ds.vars, List.lookup dod_name nc.vars with
    | some arr, some var =>
      if dod_name ∈ time_vars then writeVars ds dod rest nc
      else
        match nanFill var.fillValue arr.dtype
            (maskFill var.fillValue arr.dtype arr.values arr.mask) with
        | none => (nc, some (isnanErrMsg xr_name))
        | some data2 =>
          if cftimeGuard data2 then (nc, some (cftimeErrMsg xr_name))
          else
            match convertData dod dod_name arr.dtype data2 with
            | some data3 => writeVars ds dod rest (updateVarData nc dod_name data3)
            | none => (nc, some (astypeErrMsg xr_name))
    | _, _ => writeVars ds dod rest nc

/-- The data written for each standardized time variable, in the iteration
order of the `times` dict. -/
def timesData (st : StdTimes) : List (String × List Elem) :=
  [("base_time", [Elem.num (st.base_time_value : ℚ)]),
   ("time_offset", st.time_offset_value.map Elem.num),
   ("time", st.time_value.map Elem.num)]

/-- `for tname, tinfo in times.items(): if tname in nc.variables: …` -/
def writeTimes (st : StdTimes) (nc : NcFile) : NcFile :=
  (timesData st).foldl
    (fun acc p =>
      if (List.lookup p.1 acc.vars).isSome then updateVarData acc p.1 p.2 else acc)
    nc

/-- The three radar-metadata variables and their `ds.attrs` sources. -/
def radarMetaPairs : List (String × String) :=
  [("radar_lat", "origin_latitude"), ("radar_lon", "origin_longitude"),
   ("radar_alt", "origin_altitude")]

/-- The radar-metadata block: for each declared variable write the matching
dataset attribute, else `0.0`. -/
def writeRadarMeta (ds : Dataset) (nc : NcFile) : NcFile :=
  radarMetaPairs.foldl
    (fun acc p =>
      if (List.lookup p.1 acc.vars).isSome then
        updateVarData acc p.1 [Elem.num ((List.lookup p.2 ds.attrs).getD 0)]
      else acc)
    nc

/-- Embedding of `_write_dataset_to_file(ds, nc, dod, config)`.  On the
success path the handle is closed at the very end (`nc.close()`); an error
raised inside the loop propagates with the handle still open — the function
has no `try`/`finally`. -/
def write_dataset_to_file (ds : Dataset) (nc : NcFile) (dod : Dod)
    (config : Config) : NcFile × Option String :=
  let times := get_standardized_times ds.timeMs
  match writeVars ds dod config.variable_mapping nc with
  | (nc1, some e) => (nc1, some e)
  | (nc1, none) =>
    let nc2 := writeTimes times nc1
    let nc3 := writeRadarMeta ds nc2
    ({ nc3 with isOpen := false }, none)

/-- `', '.join(list(nc.variables.keys()))`. -/
def joinVarNames (nc : NcFile) : String :=
  String.intercalate ", " (nc.vars.map (fun p => p.1))

/-- The schema as the driver passes it on: globals replaced by the resolved
ones, then time attributes injected. -/
def dodResolved (dod : Dod) (ds : Dataset) (g : List (String × String)) : Dod :=
  update_dod_time_attributes { dod with globals := g } ds.timeMs

/-- The handle after the structural pass and the `fields` global attribute
(`nc.fields = ', '.join(list(nc.variables.keys()))`). -/
def ncWithFields (dod2 : Dod) : NcFile :=
  { create_nc_structure dod2 with
    globalAttrs := setKey (create_nc_structure dod2).globalAttrs "fields"
      (joinVarNames (create_nc_structure dod2)) }

/-- Embedding of the driver `write_ds_to_nc(ds, dod_template_path,
output_path, config)` after the `_parse_dod` call (reading and parsing the
template happens before any file handle exists).  Result: the final state of
the output handle if one was created, and the error if one was raised. -/
def write_ds_to_nc (env : Env) (ds : Dataset) (dod : Dod) (config : Config) :
    Option NcFile × Option String :=
  match (update_dod_globals env dod.globals config.entries).2 with
  | Except.error missing =>
    (none, some ("DOD has empty global attributes not provided in config: "
      ++ String.intercalate ", " missing))
  | Except.ok g =>
    let r := write_dataset_to_file ds (ncWithFields (dodResolved dod ds g))
      (dodResolved dod ds g) config
    (some r.1, r.2)

/-! ## Concrete fixtures used by witnesses and counterexamples -/

/-- A concrete process environment. -/
def envFix : Env :=
  { argv := ["run_hp.py"], utcNow := "2024-01-15 04:00:00 UTC", hostname := "sail-node" }

/-- An object-dtype array whose second element is a masked cftime value. -/
def arrMask : DataArray :=
  { dtype := "object", values := [Elem.num 1, Elem.cftime 5], mask := some [false, true] }

/-- A dataset carrying `arrMask` under the name `f`. -/
def dsMask : Dataset :=
  { vars := [("f", arrMask)], attrs := [], timeMs := 1705288800000 }

/-- A DOD with a single float variable `refl` with a bound fill value. -/
def dodMask : Dod :=
  { dimensions := [("x", some 2)],
    vars := [("refl", { dtype := "float", dims := ["x"],
                        attrs := [("_FillValue", AttrValue.float (-9999))] })],
    globals := [] }

/-- An object-dtype array whose *first* element is a cftime value. -/
def arrCf : DataArray :=
  { dtype := "object", values := [Elem.cftime 0, Elem.num 1], mask := none }

/-- A dataset carrying `arrCf` under the name `g`. -/
def dsCf : Dataset := { vars := [("g", arrCf)], attrs := [], timeMs := 0 }

/-- A DOD with a single float variable `refl`, no fill value. -/
def dodCf : Dod :=
  { dimensions := [("x", some 2)],
    vars := [("refl", { dtype := "float", dims := ["x"], attrs := [] })],
    globals := [] }

/-- Maps `g` to `refl`. -/
def cfgCf : Config := { entries := [], variable_mapping := [("g", "refl")] }

/-- The state of the output handle after the failing run on `dsCf`. -/
def ncAfterCfErr : NcFile :=
  (write_ds_to_nc envFix dsCf dodCf cfgCf).1.getD (create_nc_structure dodCf)

/-- A DOD declaring only the standardized `time` variable. -/
def dodTime : Dod :=
  { dimensions := [("time", none)],
    vars := [("time", { dtype := "double", dims := ["time"], attrs := [] })],
    globals := [] }

/-- A dataset with no data variables, scanned at 2024-01-15T03:20:00Z. -/
def dsTime : Dataset := { vars := [], attrs := [], timeMs := 1705288800000 }

/-- An empty config. -/
def cfgEmpty : Config := { entries := [], variable_mapping := [] }

/-- A float64 array with a masked element, for a variable with no fill. -/
def arrNoFill : DataArray :=
  { dtype := "float64", values := [Elem.num 3, Elem.num 4], mask := some [false, true] }

/-- A dataset carrying `arrNoFill` under the name `b`. -/
def dsNoFill : Dataset := { vars := [("b", arrNoFill)], attrs := [], timeMs := 0 }

/-- A DOD with a single double variable `bar` and no `_FillValue`. -/
def dodNoFill : Dod :=
  { dimensions := [("x", some 2)],
    vars := [("bar", { dtype := "double", dims := ["x"], attrs := [] })],
    globals := [] }

/-! # Helper lemmas -/

theorem lookup_cons {α : Type} (k k0 : String) (v0 : α) (rest : List (String × α)) :
    List.lookup k ((k0, v0) :: rest)
      = if k = k0 then some v0 else List.lookup k rest := by
  by_cases h : k = k0
  · simp [List.lookup, h]
  · have hb : (k == k0) = false := beq_eq_false_iff_ne.mpr h
    simp [List.lookup, hb, h]

theorem lookup_setKey_self {α : Type} (l : List (String × α)) (k : String) (v : α) :
    List.lookup k (setKey l k v) = some v := by
  induction l with
  | nil => simp [setKey, lookup_cons]
  | cons p rest ih =>
    obtain ⟨k0, v0⟩ := p
    by_cases h : k0 = k
    · simp [setKey, h, lookup_cons]
    · simp [setKey, h, lookup_cons, Ne.symm h, ih]

theorem lookup_setKey_ne {α : Type} (l : List (String × α)) (k k' : String) (v : α)
    (h : k' ≠ k) : List.lookup k' (setKey l k v) = List.lookup k' l := by
  induction l with
  | nil => simp [setKey, lookup_cons, h]
  | cons p rest ih =>
    obtain ⟨k0, v0⟩ := p
    by_cases hk : k0 = k
    · subst hk
      simp [setKey, lookup_cons, h]
    · by_cases hk' : k' = k0
      · simp [setKey, hk, lookup_cons, hk']
      · simp [setKey, hk, lookup_cons, hk', ih]

theorem takeWhile_append_all {p : Char → Bool} :
    ∀ (l1 l2 : List Char), (∀ c ∈ l1, p c = true) →
      (l1 ++ l2).takeWhile p = l1 ++ l2.takeWhile p
  | [], _, _ => by simp
  | c :: rest, l2, h => by
    have hc : p c = true := h c (by simp)
    have hr := takeWhile_append_all rest l2 (fun x hx => h x (by simp [hx]))
    simp [List.takeWhile, hc, hr]

theorem dropWhile_append_all {p : Char → Bool} :
    ∀ (l1 l2 : List Char), (∀ c ∈ l1, p c = true) →
      (l1 ++ l2).dropWhile p = l2.dropWhile p
  | [], _, _ => by simp
  | c :: rest, l2, h => by
    have hc : p c = true := h c (by simp)
    have hr := dropWhile_append_all rest l2 (fun x hx => h x (by simp [hx]))
    simp [List.dropWhile, hc, hr]

theorem string_mk_toList (s : String) : String.mk s.toList = s := rfl

/-- Splitting a key of the form `name ++ ":" ++ hint` at its *last* colon
recovers `(name, hint)` whenever the hint itself contains no colon —
regardless of any colons inside `name`. -/
theorem rsplitColon_append (name hint : String)
    (h : ∀ c ∈ hint.toList, c ≠ ':') :
    rsplitColon (name ++ ":" ++ hint) = (name, hint) := by
  have htl : (name ++ ":" ++ hint).toList = name.toList ++ ':' :: hint.toList := by
    simp [String.toList]
  have hrev : (name ++ ":" ++ hint).toList.reverse
      = hint.toList.reverse ++ ':' :: name.toList.reverse := by
    simp [htl]
  have hall : ∀ c ∈ hint.toList.reverse, (fun x => decide (x ≠ ':')) c = true := by
    intro c hc
    simp only [List.mem_reverse] at hc
    simp [h c hc]
  have hspan : ((name ++ ":" ++ hint).toList.reverse.span (· ≠ ':'))
      = (hint.toList.reverse, ':' :: name.toList.reverse) := by
    rw [hrev, List.span_eq_take_drop]
    rw [takeWhile_append_all _ _ hall, dropWhile_append_all _ _ hall]
    simp [List.takeWhile, List.dropWhile]
  unfold rsplitColon
  rw [hspan]
  simp [string_mk_toList]

theorem containsChar_append_colon (name hint : String) :
    containsChar (name ++ ":" ++ hint) ':' = true := by
  have htl : (name ++ ":" ++ hint).toList = name.toList ++ ':' :: hint.toList := by
    simp [String.toList]
  simp [containsChar, htl]

/-! # Claim theorems -/

/-- C5 counterexample: the claim asserts that a `byte`-hinted key whose value
contains commas parses to a tuple of integers.  In the code the comma branch
exists only for `short`/`int`; for `byte` the raw comma-separated string is
passed to `int()`, which raises `ValueError` — modelled as `none`. -/
theorem c5_counterexample :
    parse_attribute_value "flag_values:byte" "1, 2" = none := by decide

/-- C5 (amended): for every attribute key carrying a type hint from
`{float, double, short, int, byte}`, the hint is stripped from the stored
name (even when the name itself contains colons, since the split is at the
last colon) and the value is parsed per the hint: `float`/`double` yield a
floating-point value; `short`/`int` yield an integer, or a tuple of integers
when the value contains commas; `byte` yields an integer only (a
comma-separated value is a parse error for `byte`); a key with no hint stores
the value as a string with whitespace and surrounding quotes removed. -/
theorem parse_attribute_value_spec (name value : String) :
    (∀ q, pyFloatOfString (stripQuotes (pyStrip value)) = some q →
        parse_attribute_value (name ++ ":" ++ "float") value = some (name, AttrValue.float q)
      ∧ parse_attribute_value (name ++ ":" ++ "double") value = some (name, AttrValue.float q))
  ∧ (∀ n, pyIntOfString (stripQuotes (pyStrip value)) = some n →
      containsChar (stripQuotes (pyStrip value)) ',' = false →
        parse_attribute_value (name ++ ":" ++ "short") value = some (name, AttrValue.int n)
      ∧ parse_attribute_value (name ++ ":" ++ "int") value = some (name, AttrValue.int n)
      ∧ parse_attribute_value (name ++ ":" ++ "byte") value = some (name, AttrValue.int n))
  ∧ (∀ l, containsChar (stripQuotes (pyStrip value)) ',' = true →
      mapIntList (fun x => pyIntOfString (pyStrip x))
          (splitComma (stripQuotes (pyStrip value))) = some l →
        parse_attribute_value (name ++ ":" ++ "short") value = some (name, AttrValue.ints l)
      ∧ parse_attribute_value (name ++ ":" ++ "int") value = some (name, AttrValue.ints l))
  ∧ (containsChar name ':' = false →
      parse_attribute_value name value = some (name, AttrValue.str (stripQuotes (pyStrip value)))) := by
  have hf := rsplitColon_append name "float" (by decide)
  have hd := rsplitColon_append name "double" (by decide)
  have hs := rsplitColon_append name "short" (by decide)
  have hi := rsplitColon_append name "int" (by decide)
  have hb := rsplitColon_append name "byte" (by decide)
  refine ⟨?_, ?_, ?_, ?_⟩
  · intro q hq
    constructor
    · simp [parse_attribute_value, containsChar_append_colon, hf, hq]
    · simp [parse_attribute_value, containsChar_append_colon, hd, hq]
  · intro n hn hnc
    refine ⟨?_, ?_, ?_⟩
    · simp [parse_attribute_value, containsChar_append_colon, hs, hn, hnc]
    · simp [parse_attribute_value, containsChar_append_colon, hi, hn, hnc]
    · simp [parse_attribute_value, containsChar_append_colon, hb, hn]
  · intro l hc hl
    constructor
    · simp [parse_attribute_value, containsChar_append_colon, hs, hc, hl]
    · simp [parse_attribute_value, containsChar_append_colon, hi, hc, hl]
  · intro hnc
    simp [parse_attribute_value, hnc]

/-- Witness for `parse_attribute_value_spec`: concrete parses of
`_FillValue:float = -9999`, `flag_values:short = 7`,
`flag_values:short = 1, 2, 3` and a hintless `units = "dBZ"`. -/
theorem parse_attribute_value_spec_witness :
    parse_attribute_value "_FillValue:float" "-9999" = some ("_FillValue", AttrValue.float (-9999))
  ∧ parse_attribute_value "flag_values:short" "7" = some ("flag_values", AttrValue.int 7)
  ∧ parse_attribute_value "flag_values:short" "1, 2, 3" = some ("flag_values", AttrValue.ints [1, 2, 3])
  ∧ parse_attribute_value "units" "\"dBZ\"" = some ("units", AttrValue.str "dBZ") :=
  ⟨((parse_attribute_value_spec "_FillValue" "-9999").1 (-9999) (by decide)).1,
   ((parse_attribute_value_spec "flag_values" "7").2.1 7 (by decide) (by decide)).1,
   ((parse_attribute_value_spec "flag_values" "1, 2, 3").2.2.1 [1, 2, 3] (by decide) (by decide)).1,
   (parse_attribute_value_spec "units" "\"dBZ\"").2.2.2 (by decide)⟩

theorem resolveGlobalsList_missing (cfg : List (String × String)) :
    ∀ gs : List (String × String),
      (resolveGlobalsList cfg gs).2
        = (gs.filter (fun p => p.2 == "" && (List.lookup p.1 cfg).isNone)).map Prod.fst
  | [] => by simp [resolveGlobalsList]
  | (k, v) :: rest => by
    have ih := resolveGlobalsList_missing cfg rest
    by_cases hv : v = ""
    · cases hc : List.lookup k cfg with
      | some cv => simp [resolveGlobalsList, hv, hc, ih, List.filter]
      | none => simp [resolveGlobalsList, hv, hc, ih, List.filter]
    · have hb : (v == "") = false := beq_eq_false_iff_ne.mpr hv
      simp [resolveGlobalsList, hv, hb, ih, List.filter]

theorem resolveGlobalsList_all_nonempty (cfg : List (String × String)) :
    ∀ gs : List (String × String),
      (∀ k v, (k, v) ∈ gs → v = "" → ∃ cv, List.lookup k cfg = some cv ∧ cv ≠ "") →
      ∀ p ∈ (resolveGlobalsList cfg gs).1, p.2 ≠ ""
  | [], _, p, hp => by simp [resolveGlobalsList] at hp
  | (k, v) :: rest, h, p, hp => by
    have ih := resolveGlobalsList_all_nonempty cfg rest
      (fun k2 v2 hm hv => h k2 v2 (by simp [hm]) hv)
    by_cases hv : v = ""
    · obtain ⟨cv, hc, hcv⟩ := h k v (by simp) hv
      have hred : (resolveGlobalsList cfg ((k, v) :: rest)).1
          = (k, cv) :: (resolveGlobalsList cfg rest).1 := by
        simp [resolveGlobalsList, hv, hc]
      rw [hred, List.mem_cons] at hp
      rcases hp with hp | hp
      · rw [hp]; exact hcv
      · exact ih p hp
    · have hred : (resolveGlobalsList cfg ((k, v) :: rest)).1
          = (k, v) :: (resolveGlobalsList cfg rest).1 := by
        simp [resolveGlobalsList, hv]
      rw [hred, List.mem_cons] at hp
      rcases hp with hp | hp
      · rw [hp]; exact hv
      · exact ih p hp

/-- C1 counterexample: the claim asserts that when every empty global
attribute has a same-named config key, the result has **zero** empty global
attributes.  With schema global `doi` empty and config entry `doi = ""`, the
code fills the slot with `str("") = ""`: the call succeeds (no error) yet the
returned schema still has an empty global attribute.  (The error list is also
not "all still-empty names": it only ever contains empty globals whose key is
*absent* from the config.) -/
theorem update_dod_globals_counterexample :
    (update_dod_globals ⟨["prog"], "2024-01-01 00:00:00 UTC", "host"⟩
        [("doi", "")] [("doi", "")]).2
      = Except.ok [("doi", "")] := rfl

/-- C1 (amended): after deriving `command_line` and `history` onto the config,
(1) if every empty global attribute's name has a config entry whose value is
a *nonempty* string, resolution succeeds and the result has zero empty global
attributes; (2) if any empty global attribute's name is absent from the
config, resolution fails and the error lists exactly the names of the empty
globals absent from the config (in schema order) — not all still-empty names;
(3) if no empty global's name is absent, resolution succeeds. -/
theorem update_dod_globals_spec (env : Env) (globals0 config : List (String × String)) :
    ((∀ k v, (k, v) ∈ globals0 → v = "" →
        ∃ cv, List.lookup k (update_dod_globals env globals0 config).1 = some cv ∧ cv ≠ "") →
      ∃ g, (update_dod_globals env globals0 config).2 = Except.ok g ∧ ∀ p ∈ g, p.2 ≠ "")
  ∧ ((globals0.filter (fun p => p.2 == ""
        && (List.lookup p.1 (update_dod_globals env globals0 config).1).isNone)).map Prod.fst ≠ [] →
      (update_dod_globals env globals0 config).2
        = Except.error ((globals0.filter (fun p => p.2 == ""
            && (List.lookup p.1 (update_dod_globals env globals0 config).1).isNone)).map Prod.fst))
  ∧ ((globals0.filter (fun p => p.2 == ""
        && (List.lookup p.1 (update_dod_globals env globals0 config).1).isNone)).map Prod.fst = [] →
      ∃ g, (update_dod_globals env globals0 config).2 = Except.ok g) := by
  set cfg2 := (update_dod_globals env globals0 config).1 with hcfg2
  have hsnd : (update_dod_globals env globals0 config).2
      = if (resolveGlobalsList cfg2 globals0).2.isEmpty
        then Except.ok (resolveGlobalsList cfg2 globals0).1
        else Except.error (resolveGlobalsList cfg2 globals0).2 := rfl
  have hm := resolveGlobalsList_missing cfg2 globals0
  refine ⟨?_, ?_, ?_⟩
  · intro h
    have hnil : globals0.filter (fun p => p.2 == "" && (List.lookup p.1 cfg2).isNone) = [] := by
      rw [List.filter_eq_nil_iff]
      intro p hp
      by_cases hv : p.2 = ""
      · obtain ⟨cv, hc, _⟩ := h p.1 p.2 hp hv
        simp [hv, hc]
      · simp [hv]
    have hempty : (resolveGlobalsList cfg2 globals0).2 = [] := by rw [hm, hnil]; rfl
    refine ⟨(resolveGlobalsList cfg2 globals0).1, ?_, ?_⟩
    · rw [hsnd, hempty]; rfl
    · exact resolveGlobalsList_all_nonempty cfg2 globals0 h
  · intro h
    have hne : ¬ (resolveGlobalsList cfg2 globals0).2.isEmpty = true := by
      rw [hm]
      simpa [List.isEmpty_iff] using h
    rw [hsnd, if_neg hne, hm]
  · intro h
    have hempty : (resolveGlobalsList cfg2 globals0).2 = [] := by rw [hm]; exact h
    exact ⟨_, by rw [hsnd, hempty]; rfl⟩

/-- Witness for `update_dod_globals_spec`: a schema with one empty global
(`doi`) resolved from the config and one pre-set global kept, and a schema
whose empty globals `qc_standards` and `doi` are absent from the config,
producing an error naming exactly those two. -/
theorem update_dod_globals_spec_witness :
    (∃ g, (update_dod_globals ⟨["p"], "now", "host"⟩
        [("doi", ""), ("site", "sail")] [("doi", "10.5439/1882723")]).2
          = Except.ok g ∧ ∀ p ∈ g, p.2 ≠ "")
  ∧ (update_dod_globals ⟨["p"], "now", "host"⟩
        [("qc_standards", ""), ("site", "sail"), ("doi", "")] []).2
      = Except.error ["qc_standards", "doi"] := by
  constructor
  · refine (update_dod_globals_spec ⟨["p"], "now", "host"⟩
      [("doi", ""), ("site", "sail")] [("doi", "10.5439/1882723")]).1 ?_
    intro k v hm hv
    fin_cases hm
    · exact ⟨"10.5439/1882723", by decide, by decide⟩
    · exact absurd hv (by decide)
  · have h2 := (update_dod_globals_spec ⟨["p"], "now", "host"⟩
      [("qc_standards", ""), ("site", "sail"), ("doi", "")] []).2.1 (by decide)
    rw [h2]
    rfl

/-- C7 counterexample: the claim asserts the caller's original RunConfig
mapping is unchanged after resolution.  Starting from an empty config dict,
after the call the caller's dict holds the two derived keys — the code writes
`config["command_line"]` and `config["history"]` into the caller's dict, not
into a working copy. -/
theorem update_dod_globals_mutates_config :
    (update_dod_globals ⟨["prog"], "2024-01-01 00:00:00 UTC", "host"⟩ [] []).1
        = [("command_line", "prog"),
           ("history", "created on 2024-01-01 00:00:00 UTC on host")]
  ∧ (update_dod_globals ⟨["prog"], "2024-01-01 00:00:00 UTC", "host"⟩ [] []).1
        ≠ ([] : List (String × String)) := by
  exact ⟨rfl, by decide⟩

/-- C7 (amended): the derived keys `command_line` and `history` are written
directly into the caller's RunConfig mapping; after the call the caller's
mapping equals its original state with exactly those two keys set, and every
other key's binding is unchanged. -/
theorem update_dod_globals_config_effect (env : Env)
    (globals0 config : List (String × String)) :
    (update_dod_globals env globals0 config).1
        = setKey (setKey config "command_line" (commandLineOf env)) "history" (historyOf env)
  ∧ ∀ k, k ≠ "command_line" → k ≠ "history" →
      List.lookup k (update_dod_globals env globals0 config).1 = List.lookup k config := by
  refine ⟨rfl, ?_⟩
  intro k h1 h2
  show List.lookup k (setKey (setKey config "command_line" (commandLineOf env))
      "history" (historyOf env)) = _
  rw [lookup_setKey_ne _ _ _ _ h2, lookup_setKey_ne _ _ _ _ h1]

/-- Witness for `update_dod_globals_config_effect` at a concrete config and a
concrete third key `site`, whose binding survives the call unchanged. -/
theorem update_dod_globals_config_effect_witness :
    (update_dod_globals ⟨["p"], "now", "host"⟩ [] [("site", "sail")]).1
        = setKey (setKey [("site", "sail")] "command_line"
            (commandLineOf ⟨["p"], "now", "host"⟩)) "history"
            (historyOf ⟨["p"], "now", "host"⟩)
  ∧ List.lookup "site"
        (update_dod_globals ⟨["p"], "now", "host"⟩ [] [("site", "sail")]).1
      = List.lookup "site" [("site", "sail")] :=
  ⟨(update_dod_globals_config_effect ⟨["p"], "now", "host"⟩ [] [("site", "sail")]).1,
   (update_dod_globals_config_effect ⟨["p"], "now", "host"⟩ [] [("site", "sail")]).2
     "site" (by decide) (by decide)⟩

theorem toInt32_eq_self (n : Int) (h1 : -(2 ^ 31) ≤ n) (h2 : n < 2 ^ 31) :
    toInt32 n = n := by
  unfold toInt32
  omega

/-- C3 counterexample: the claim asserts `base_time.value` equals the
whole-second offset from the epoch for **any** timestamp.  The code stores
the offset through `np.int32`, so for `t = 2038-01-19T03:14:08Z` (offset
`2 ^ 31` s) the stored value wraps to `-2 ^ 31` (on NumPy ≥ 2.0 the
conversion raises `OverflowError` instead — either way the stated equality
fails). -/
theorem base_time_int32_counterexample :
    (get_standardized_times 2147483648000).base_time_value = -2147483648
  ∧ Int.tdiv 2147483648000 1000 = 2147483648 := by
  constructor
  · rfl
  · rfl

/-- C3 (amended): for any timestamp, `time.value` is a single-element array
whose value lies in `[0, 86400)` seconds (seconds since the start of the
timestamp's UTC calendar day, fractional part preserved), and
`base_time.value` equals the whole-second offset from the epoch
(truncated toward zero) **whenever that offset fits in a signed 32-bit
integer**; outside that range it is the wrapped 32-bit value. -/
theorem get_standardized_times_spec (tms : Int) :
    (∃ q, (get_standardized_times tms).time_value = [q] ∧ 0 ≤ q ∧ q < 86400)
  ∧ (-(2 ^ 31) ≤ Int.tdiv tms 1000 → Int.tdiv tms 1000 < 2 ^ 31 →
      (get_standardized_times tms).base_time_value = Int.tdiv tms 1000) := by
  constructor
  · set mid : Int := 86400 * Int.ediv (Int.ediv tms 1000) 86400 with hmid
    have hq : (get_standardized_times tms).time_value
        = [((tms : ℚ) - ((mid : Int) : ℚ) * 1000) / 1000] := rfl
    have hb1 : 1000 * Int.ediv tms 1000 + Int.emod tms 1000 = tms :=
      Int.ediv_add_emod tms 1000
    have hb2 : 0 ≤ Int.emod tms 1000 := Int.emod_nonneg tms (by decide)
    have hb3 : Int.emod tms 1000 < 1000 := Int.emod_lt_of_pos tms (by decide)
    have hb4 : 86400 * Int.ediv (Int.ediv tms 1000) 86400 + Int.emod (Int.ediv tms 1000) 86400
        = Int.ediv tms 1000 := Int.ediv_add_emod (Int.ediv tms 1000) 86400
    have hb5 : 0 ≤ Int.emod (Int.ediv tms 1000) 86400 :=
      Int.emod_nonneg (Int.ediv tms 1000) (by decide)
    have hb6 : Int.emod (Int.ediv tms 1000) 86400 < 86400 :=
      Int.emod_lt_of_pos (Int.ediv tms 1000) (by decide)
    have hlow : 0 ≤ tms - 1000 * mid := by rw [hmid]; omega
    have hhigh : tms - 1000 * mid < 86400000 := by rw [hmid]; omega
    refine ⟨((tms : ℚ) - ((mid : Int) : ℚ) * 1000) / 1000, hq, ?_, ?_⟩
    · apply div_nonneg _ (by norm_num)
      have : ((tms - 1000 * mid : Int) : ℚ) ≥ 0 := by exact_mod_cast hlow
      push_cast at this ⊢
      linarith
    · rw [div_lt_iff₀ (by norm_num)]
      have : ((tms - 1000 * mid : Int) : ℚ) < 86400000 := by exact_mod_cast hhigh
      push_cast at this ⊢
      linarith
  · intro h1 h2
    exact toInt32_eq_self (Int.tdiv tms 1000) h1 h2

/-- Witness for `get_standardized_times_spec` at 2024-01-15T03:20:00Z. -/
theorem get_standardized_times_spec_witness :
    (∃ q, (get_standardized_times 1705288800000).time_value = [q] ∧ 0 ≤ q ∧ q < 86400)
  ∧ (get_standardized_times 1705288800000).base_time_value = Int.tdiv 1705288800000 1000 :=
  ⟨(get_standardized_times_spec 1705288800000).1,
   (get_standardized_times_spec 1705288800000).2 (by decide) (by decide)⟩

/-- C4 (confirmed): `time_offset` is always the single-element array `[0.0]`
with units `"seconds since " + <scan time formatted "%Y-%m-%d %H:%M:%S 0:00">`
(relative to the scan time, not midnight), and `time`'s units string is
`"seconds since " + <UTC midnight formatted "%Y-%m-%d 00:00:00 0:00">`; at the
concrete scan time 2024-01-15T03:20:00Z, `base_time.value = 1705288800`,
`time.value = [12000.0]` and
`time.units = "seconds since 2024-01-15 00:00:00 0:00"`. -/
theorem standardized_time_strings :
    ((get_standardized_times 1705288800000).base_time_value = 1705288800
      ∧ (get_standardized_times 1705288800000).time_value = [12000]
      ∧ (get_standardized_times 1705288800000).time_units
          = "seconds since 2024-01-15 00:00:00 0:00"
      ∧ (get_standardized_times 1705288800000).time_offset_value = [0]
      ∧ (get_standardized_times 1705288800000).time_offset_units
          = "seconds since 2024-01-15 03:20:00 0:00")
  ∧ ∀ tms : Int,
      (get_standardized_times tms).time_offset_value = [0]
    ∧ (get_standardized_times tms).time_offset_units
        = "seconds since " ++ strftimeScan (Int.ediv tms 1000)
    ∧ (get_standardized_times tms).time_units
        = "seconds since " ++ strftimeMidnight (Int.ediv tms 1000)
    ∧ (get_standardized_times tms).base_time_string
        = strftimeScan (Int.ediv tms 1000) := by
  constructor
  · refine ⟨rfl, ?_, rfl, rfl, rfl⟩
    show [((1705288800000 : ℚ) - (((86400 * Int.ediv (Int.ediv 1705288800000 1000) 86400 : Int)) : ℚ) * 1000) / 1000] = [12000]
    norm_num
  · intro tms
    exact ⟨rfl, rfl, rfl, rfl⟩

theorem lookup_removeKey_self {α : Type} (l : List (String × α)) (k : String) :
    List.lookup k (removeKey l k) = none := by
  induction l with
  | nil => rfl
  | cons p rest ih =>
    obtain ⟨k0, v0⟩ := p
    by_cases h : k0 = k
    · simp [removeKey, List.filter, h] at ih ⊢
      exact ih
    · have hb : (k0 != k) = true := bne_iff_ne.mpr h
      simp only [removeKey, List.filter, hb] at ih ⊢
      rw [lookup_cons, if_neg (Ne.symm h)]
      exact ih

theorem lookup_updData (n : String) (d : List Elem) :
    ∀ (l : List (String × NcVar)) (m : String),
      List.lookup m (updData l n d)
        = if m = n then (List.lookup m l).map (fun v => { v with data := d })
          else List.lookup m l
  | [], m => by by_cases h : m = n <;> simp [updData, h]
  | (k0, v0) :: rest, m => by
    have ih := lookup_updData n d rest m
    simp only [updData] at ih
    by_cases hk : k0 = n
    · by_cases hm : m = k0
      · simp [updData, hk, hm, lookup_cons]
      · have hmn : m ≠ n := fun h => hm (h.trans hk.symm)
        simp [updData, hk, hm, hmn, lookup_cons, ih]
    · by_cases hm : m = k0
      · have hmn : m ≠ n := fun h => hk (hm.symm.trans h)
        simp [updData, hk, hm, hmn, lookup_cons]
      · simp [updData, hk, hm, lookup_cons, ih]

theorem lookup_updateVarData_ne (nc : NcFile) (n m : String) (d : List Elem)
    (h : m ≠ n) :
    List.lookup m (updateVarData nc n d).vars = List.lookup m nc.vars := by
  show List.lookup m (updData nc.vars n d) = _
  rw [lookup_updData, if_neg h]

theorem lookup_condUpd_ne (acc : NcFile) (n m : String) (d : List Elem) (h : m ≠ n) :
    List.lookup m
        (if (List.lookup n acc.vars).isSome then updateVarData acc n d else acc).vars
      = List.lookup m acc.vars := by
  split
  · exact lookup_updateVarData_ne acc n m d h
  · rfl

theorem lookup_condUpd_self (acc : NcFile) (n : String) (d : List Elem) (v : NcVar)
    (hv : List.lookup n acc.vars = some v) :
    List.lookup n
        (if (List.lookup n acc.vars).isSome then updateVarData acc n d else acc).vars
      = some { v with data := d } := by
  rw [if_pos (by rw [hv]; rfl)]
  show List.lookup n (updData acc.vars n d) = _
  rw [lookup_updData, if_pos rfl, hv]
  rfl

theorem writeVars_isOpen (ds : Dataset) (dod : Dod) :
    ∀ (entries : List (String × String)) (nc : NcFile),
      ((writeVars ds dod entries nc).1).isOpen = nc.isOpen
  | [], _ => rfl
  | (xr, dodn) :: rest, nc => by
    rw [writeVars]
    cases hx : List.lookup xr ds.vars with
    | none => exact writeVars_isOpen ds dod rest nc
    | some arr =>
      cases hn : List.lookup dodn nc.vars with
      | none => exact writeVars_isOpen ds dod rest nc
      | some var =>
        by_cases ht : dodn ∈ time_vars
        · simp only [if_pos ht]
          exact writeVars_isOpen ds dod rest nc
        · simp only [if_neg ht]
          split
          · rfl
          · split
            · rfl
            · split
              · rw [writeVars_isOpen ds dod rest _]
                rfl
              · rfl

theorem writeVars_time_lookup (ds : Dataset) (dod : Dod) (tname : String)
    (htn : tname ∈ time_vars) :
    ∀ (entries : List (String × String)) (nc : NcFile),
      List.lookup tname ((writeVars ds dod entries nc).1).vars
        = List.lookup tname nc.vars
  | [], _ => rfl
  | (xr, dodn) :: rest, nc => by
    rw [writeVars]
    cases hx : List.lookup xr ds.vars with
    | none => exact writeVars_time_lookup ds dod tname htn rest nc
    | some arr =>
      cases hn : List.lookup dodn nc.vars with
      | none => exact writeVars_time_lookup ds dod tname htn rest nc
      | some var =>
        by_cases ht : dodn ∈ time_vars
        · simp only [if_pos ht]
          exact writeVars_time_lookup ds dod tname htn rest nc
        · simp only [if_neg ht]
          split
          · rfl
          · split
            · rfl
            · split
              · rw [writeVars_time_lookup ds dod tname htn rest _]
                exact lookup_updateVarData_ne nc dodn tname _ (fun he => ht (he ▸ htn))
              · rfl

theorem lookup_writeTimes (st : StdTimes) (nc : NcFile) (tname : String)
    (d : List Elem) (hmem : (tname, d) ∈ timesData st) (v : NcVar)
    (hv : List.lookup tname nc.vars = some v) :
    ∃ v2, List.lookup tname (writeTimes st nc).vars = some v2 ∧ v2.data = d := by
  have hunf : writeTimes st nc
      = (if (List.lookup "time"
            ((if (List.lookup "time_offset"
                ((if (List.lookup "base_time" nc.vars).isSome
                  then updateVarData nc "base_time" [Elem.num (st.base_time_value : ℚ)]
                  else nc)).vars).isSome
              then updateVarData
                (if (List.lookup "base_time" nc.vars).isSome
                  then updateVarData nc "base_time" [Elem.num (st.base_time_value : ℚ)]
                  else nc) "time_offset" (st.time_offset_value.map Elem.num)
              else (if (List.lookup "base_time" nc.vars).isSome
                then updateVarData nc "base_time" [Elem.num (st.base_time_value : ℚ)]
                else nc))).vars).isSome
          then updateVarData
            (if (List.lookup "time_offset"
                ((if (List.lookup "base_time" nc.vars).isSome
                  then updateVarData nc "base_time" [Elem.num (st.base_time_value : ℚ)]
                  else nc)).vars).isSome
              then updateVarData
                (if (List.lookup "base_time" nc.vars).isSome
                  then updateVarData nc "base_time" [Elem.num (st.base_time_value : ℚ)]
                  else nc) "time_offset" (st.time_offset_value.map Elem.num)
              else (if (List.lookup "base_time" nc.vars).isSome
                then updateVarData nc "base_time" [Elem.num (st.base_time_value : ℚ)]
                else nc)) "time" (st.time_value.map Elem.num)
          else (if (List.lookup "time_offset"
                ((if (List.lookup "base_time" nc.vars).isSome
                  then updateVarData nc "base_time" [Elem.num (st.base_time_value : ℚ)]
                  else nc)).vars).isSome
              then updateVarData
                (if (List.lookup "base_time" nc.vars).isSome
                  then updateVarData nc "base_time" [Elem.num (st.base_time_value : ℚ)]
                  else nc) "time_offset" (st.time_offset_value.map Elem.num)
              else (if (List.lookup "base_time" nc.vars).isSome
                then updateVarData nc "base_time" [Elem.num (st.base_time_value : ℚ)]
                else nc))) := rfl
  fin_cases hmem
  · rw [hunf, lookup_condUpd_ne _ _ _ _ (by decide), lookup_condUpd_ne _ _ _ _ (by decide)]
    exact ⟨{ v with data := [Elem.num (st.base_time_value : ℚ)] },
      lookup_condUpd_self nc "base_time" _ v hv, rfl⟩
  · rw [hunf, lookup_condUpd_ne _ _ _ _ (by decide)]
    have hv1 : List.lookup "time_offset"
        ((if (List.lookup "base_time" nc.vars).isSome
          then updateVarData nc "base_time" [Elem.num (st.base_time_value : ℚ)]
          else nc)).vars = some v := by
      rw [lookup_condUpd_ne _ _ _ _ (by decide)]
      exact hv
    exact ⟨{ v with data := st.time_offset_value.map Elem.num },
      lookup_condUpd_self _ "time_offset" _ v hv1, rfl⟩
  · have hv1 : List.lookup "time"
        ((if (List.lookup "time_offset"
            ((if (List.lookup "base_time" nc.vars).isSome
              then updateVarData nc "base_time" [Elem.num (st.base_time_value : ℚ)]
              else nc)).vars).isSome
          then updateVarData
            (if (List.lookup "base_time" nc.vars).isSome
              then updateVarData nc "base_time" [Elem.num (st.base_time_value : ℚ)]
              else nc) "time_offset" (st.time_offset_value.map Elem.num)
          else (if (List.lookup "base_time" nc.vars).isSome
            then updateVarData nc "base_time" [Elem.num (st.base_time_value : ℚ)]
            else nc))).vars = some v := by
      rw [lookup_condUpd_ne _ _ _ _ (by decide), lookup_condUpd_ne _ _ _ _ (by decide)]
      exact hv
    rw [hunf]
    exact ⟨{ v with data := st.time_value.map Elem.num },
      lookup_condUpd_self _ "time" _ v hv1, rfl⟩

theorem lookup_writeRadarMeta_time (ds : Dataset) (nc : NcFile) (tname : String)
    (htn : tname ∈ time_vars) :
    List.lookup tname (writeRadarMeta ds nc).vars = List.lookup tname nc.vars := by
  have hunf : writeRadarMeta ds nc
      = (let s1 := if (List.lookup "radar_lat" nc.vars).isSome
          then updateVarData nc "radar_lat"
            [Elem.num ((List.lookup "origin_latitude" ds.attrs).getD 0)] else nc
        let s2 := if (List.lookup "radar_lon" s1.vars).isSome
          then updateVarData s1 "radar_lon"
            [Elem.num ((List.lookup "origin_longitude" ds.attrs).getD 0)] else s1
        if (List.lookup "radar_alt" s2.vars).isSome
          then updateVarData s2 "radar_alt"
            [Elem.num ((List.lookup "origin_altitude" ds.attrs).getD 0)] else s2) := rfl
  rw [hunf]
  fin_cases htn <;>
    rw [lookup_condUpd_ne _ _ _ _ (by decide), lookup_condUpd_ne _ _ _ _ (by decide),
      lookup_condUpd_ne _ _ _ _ (by decide)]

/-- C9 (confirmed): for every entry of the variable-name mapping, if the
external name is absent from the input Dataset or the schema name is absent
from the created output variables, the value pass skips that entry silently:
the result on the remaining entries is exactly the result without the entry —
no error, no write, no effect on other entries. -/
theorem writeVars_skips_absent (ds : Dataset) (dod : Dod)
    (rest : List (String × String)) (nc : NcFile) (xr_name dod_name : String)
    (h : List.lookup xr_name ds.vars = none ∨ List.lookup dod_name nc.vars = none) :
    writeVars ds dod ((xr_name, dod_name) :: rest) nc = writeVars ds dod rest nc := by
  rcases h with h | h
  · rw [writeVars, h]
  · cases hx : List.lookup xr_name ds.vars with
    | none => rw [writeVars, hx]
    | some arr => rw [writeVars, hx, h]

/-- Witness for `writeVars_skips_absent`: an entry whose external name `zz`
is absent from the dataset is dropped silently. -/
theorem writeVars_skips_absent_witness :
    writeVars dsTime dodCf [("zz", "refl")] (create_nc_structure dodCf)
      = writeVars dsTime dodCf [] (create_nc_structure dodCf) :=
  writeVars_skips_absent dsTime dodCf [] (create_nc_structure dodCf) "zz" "refl"
    (Or.inl rfl)

/-- C6 counterexample: the claim asserts the fill value is bound at
variable-creation time **whenever** `_FillValue` is present.  The code tests
`if fill:` — Python truthiness — so a present but falsy `_FillValue` (here
`_FillValue:float = 0`) is neither bound at creation nor attached afterwards:
it is silently dropped. -/
theorem createVar_falsy_fill_counterexample :
    (createVar { dtype := "float", dims := ["x"],
                 attrs := [("_FillValue", AttrValue.float 0)] }).fillValue = none
  ∧ List.lookup "_FillValue"
      (createVar { dtype := "float", dims := ["x"],
                   attrs := [("_FillValue", AttrValue.float 0)] }).attrs = none :=
  ⟨rfl, rfl⟩

/-- C6 (amended): during the structural pass every variable is created via
`createVar`; `_FillValue` is always removed from the attributes attached
afterwards, and the fill value is bound at creation time exactly when
`_FillValue` is present **and truthy** (nonzero, nonempty); a present but
falsy `_FillValue` is dropped without being bound. -/
theorem create_nc_structure_fill_spec :
    (∀ dod : Dod, (create_nc_structure dod).vars
        = dod.vars.map (fun p => (p.1, createVar p.2)))
  ∧ ∀ vinfo : VarInfo,
      List.lookup "_FillValue" (createVar vinfo).attrs = none
    ∧ (∀ f, List.lookup "_FillValue" vinfo.attrs = some f → pyTruthy f = true →
          (createVar vinfo).fillValue = some f)
    ∧ (∀ f, List.lookup "_FillValue" vinfo.attrs = some f → pyTruthy f = false →
          (createVar vinfo).fillValue = none)
    ∧ (List.lookup "_FillValue" vinfo.attrs = none →
          (createVar vinfo).fillValue = none) := by
  refine ⟨fun dod => rfl, fun vinfo => ⟨?_, ?_, ?_, ?_⟩⟩
  · show List.lookup "_FillValue" (removeKey vinfo.attrs "_FillValue") = none
    exact lookup_removeKey_self vinfo.attrs "_FillValue"
  · intro f hf ht
    show (match List.lookup "_FillValue" vinfo.attrs with
      | some f => if pyTruthy f then some f else none
      | none => none) = some f
    rw [hf]
    simp [ht]
  · intro f hf ht
    show (match List.lookup "_FillValue" vinfo.attrs with
      | some f => if pyTruthy f then some f else none
      | none => none) = none
    rw [hf]
    simp [ht]
  · intro hf
    show (match List.lookup "_FillValue" vinfo.attrs with
      | some f => if pyTruthy f then some f else none
      | none => none) = none
    rw [hf]

/-- Witness for `create_nc_structure_fill_spec`: a truthy `_FillValue` of
`-9999.0` is bound at creation; the structural pass maps `createVar` over the
DOD's variables. -/
theorem create_nc_structure_fill_spec_witness :
    (create_nc_structure dodMask).vars
        = dodMask.vars.map (fun p => (p.1, createVar p.2))
  ∧ (createVar { dtype := "float", dims := ["x"],
                 attrs := [("_FillValue", AttrValue.float (-9999))] }).fillValue
      = some (AttrValue.float (-9999)) :=
  ⟨(create_nc_structure_fill_spec).1 dodMask,
   (create_nc_structure_fill_spec).2
     { dtype := "float", dims := ["x"],
       attrs := [("_FillValue", AttrValue.float (-9999))] }
     |>.2.1 (AttrValue.float (-9999)) rfl (by decide)⟩

/-- Reduction of one processed loop entry (both names present, not a time
variable) to the step pipeline. -/
theorem writeVars_cons_processed (ds : Dataset) (dod : Dod)
    (rest : List (String × String)) (nc : NcFile) (xr_name dod_name : String)
    (arr : DataArray) (var : NcVar)
    (hx : List.lookup xr_name ds.vars = some arr)
    (hn : List.lookup dod_name nc.vars = some var)
    (ht : dod_name ∉ time_vars) :
    writeVars ds dod ((xr_name, dod_name) :: rest) nc
      = match nanFill var.fillValue arr.dtype
            (maskFill var.fillValue arr.dtype arr.values arr.mask) with
        | none => (nc, some (isnanErrMsg xr_name))
        | some data2 =>
          if cftimeGuard data2 then (nc, some (cftimeErrMsg xr_name))
          else
            match convertData dod dod_name arr.dtype data2 with
            | some data3 => writeVars ds dod rest (updateVarData nc dod_name data3)
            | none => (nc, some (astypeErrMsg xr_name)) := by
  rw [writeVars, hx, hn]
  exact if_neg ht

/-- An element that is a cftime object or the object default fill sentinel
cannot be cast to any numeric dtype. -/
theorem castElem_bad (target : String) (e : Elem)
    (h : isCftimeElem e = true ∨ e = Elem.str "?") : castElem target e = none := by
  rcases h with h | h
  · cases e <;> simp [isCftimeElem] at h
    rfl
  · rw [h]
    rfl

/-- `astype` fails as soon as the array holds an unconvertible element. -/
theorem astypeList_none_of_mem (target : String) :
    ∀ (l : List Elem) (e : Elem), e ∈ l → castElem target e = none →
      astypeList target l = none
  | a :: t, e, hm, hc => by
    rcases List.mem_cons.mp hm with h | h
    · have hca : castElem target a = none := h ▸ hc
      rw [astypeList, hca]
    · rw [astypeList, astypeList_none_of_mem target t e h hc]
      cases castElem target a <;> rfl

/-- `dtype_map` never targets the object dtype. -/
theorem dtype_map_ne_object (dt target : String) (h : dtype_map dt = some target) :
    target ≠ "object" := by
  intro hobj
  subst hobj
  unfold dtype_map at h
  split_ifs at h
  all_goals exact absurd (Option.some.inj h) (by decide)

/-- Masked substitution over an object-dtype array keeps an unconvertible
element wherever the source array held a cftime object: either the cftime
survives (unmasked) or it is replaced by the object default fill `'?'`. -/
theorem maskFill_object_bad_elem (t : Int) :
    ∀ (values : List Elem) (m : List Bool),
      Elem.cftime t ∈ values → m.length = values.length →
      ∃ e ∈ List.zipWith (fun v b => if b then defaultFill "object" else v) values m,
        isCftimeElem e = true ∨ e = Elem.str "?"
  | [], _, hm, _ => by simp at hm
  | v :: vs, [], _, hl => by simp at hl
  | v :: vs, b :: bs, hm, hl => by
    rcases List.mem_cons.mp hm with h | h
    · cases b
      · refine ⟨Elem.cftime t, ?_, Or.inl rfl⟩
        simp [List.zipWith, ← h]
      · refine ⟨Elem.str "?", ?_, Or.inr rfl⟩
        simp [List.zipWith, defaultFill]
    · obtain ⟨e, he, hp⟩ := maskFill_object_bad_elem t vs bs h (by simpa using hl)
      exact ⟨e, by simp [List.zipWith, he], hp⟩

/-- C10 (confirmed): in the value pass, when a mapped array carries a
validity mask and the target variable has no bound fill value, the masked
elements are silently replaced by numpy's dtype-dependent default fill
sentinel (`np.ma.filled` is called with `fill_value=None`): the loop
continues with the substituted array stored — no error is raised and no
element stays masked. -/
theorem masked_no_fill_default_sentinel (ds : Dataset) (dod : Dod)
    (rest : List (String × String)) (nc : NcFile) (xr_name dod_name : String)
    (arr : DataArray) (var : NcVar) (m : List Bool) (vinfo : VarInfo)
    (hx : List.lookup xr_name ds.vars = some arr)
    (hn : List.lookup dod_name nc.vars = some var)
    (ht : dod_name ∉ time_vars)
    (hf : var.fillValue = none)
    (hm : arr.mask = some m)
    (hdv : List.lookup dod_name dod.vars = some vinfo)
    (hdt : dtype_map vinfo.dtype = some arr.dtype)
    (hg : cftimeGuard
        (List.zipWith (fun v b => if b then defaultFill arr.dtype else v)
          arr.values m) = false) :
    writeVars ds dod ((xr_name, dod_name) :: rest) nc
      = writeVars ds dod rest
          (updateVarData nc dod_name
            (List.zipWith (fun v b => if b then defaultFill arr.dtype else v)
              arr.values m)) := by
  have hmf : maskFill var.fillValue arr.dtype arr.values arr.mask
      = List.zipWith (fun v b => if b then defaultFill arr.dtype else v)
          arr.values m := by
    rw [hm, hf]
    rfl
  have hnf : nanFill var.fillValue arr.dtype
      (maskFill var.fillValue arr.dtype arr.values arr.mask)
      = some (List.zipWith (fun v b => if b then defaultFill arr.dtype else v)
          arr.values m) := by
    rw [hmf, hf]
    exact rfl
  have hconv : convertData dod dod_name arr.dtype
      (List.zipWith (fun v b => if b then defaultFill arr.dtype else v)
        arr.values m)
      = some (List.zipWith (fun v b => if b then defaultFill arr.dtype else v)
        arr.values m) := by
    simp only [convertData, hdv, hdt]
    simp
  rw [writeVars_cons_processed ds dod rest nc xr_name dod_name arr var hx hn ht, hnf]
  simp only [hg, Bool.false_eq_true, if_false, hconv]

/-- Witness for `masked_no_fill_default_sentinel`: a float64 array `[3, 4]`
with element 1 masked, written to a fill-less `double` variable, is stored as
`[3, 1e20]`. -/
theorem masked_no_fill_default_sentinel_witness :
    writeVars dsNoFill dodNoFill [("b", "bar")] (create_nc_structure dodNoFill)
      = writeVars dsNoFill dodNoFill []
          (updateVarData (create_nc_structure dodNoFill) "bar"
            (List.zipWith (fun v b => if b then defaultFill arrNoFill.dtype else v)
              arrNoFill.values [false, true])) :=
  masked_no_fill_default_sentinel dsNoFill dodNoFill [] (create_nc_structure dodNoFill)
    "b" "bar" arrNoFill (createVar { dtype := "double", dims := ["x"], attrs := [] })
    [false, true] { dtype := "double", dims := ["x"], attrs := [] }
    rfl rfl (by decide) rfl rfl rfl rfl (by decide)

/-- C2 (confirmed): in the value pass, (1) a mapping entry whose schema name
is `base_time`, `time_offset` or `time` is always skipped — the Dataset's
values are never copied into those variables; (2) if any element of a mapped
array flowing through the generic value path is a time-like (cftime) value,
the write fails hard with a type error: when a fill value is bound,
`np.isnan` raises `TypeError` on the object-dtype array; otherwise either
the first-element guard fires or the dtype coercion to the schema's declared
dtype rejects the unconvertible element.  (Hypotheses are numpy/schema
invariants: an array holding a cftime object has dtype `object`; a mask has
the array's length; the target variable's DOD dtype is one of the five
schema dtypes.)  (3) on every successful run, each of the three time
variables that exists in the output receives exactly the standardized time
value derived from the Dataset's timestamp, regardless of the Dataset's
contents. -/
theorem writer_time_rules :
    (∀ (ds : Dataset) (dod : Dod) (rest : List (String × String)) (nc : NcFile)
        (xr_name dod_name : String), dod_name ∈ time_vars →
        writeVars ds dod ((xr_name, dod_name) :: rest) nc = writeVars ds dod rest nc)
  ∧ (∀ (ds : Dataset) (dod : Dod) (rest : List (String × String)) (nc : NcFile)
        (xr_name dod_name : String) (arr : DataArray) (var : NcVar) (vinfo : VarInfo),
        List.lookup xr_name ds.vars = some arr →
        List.lookup dod_name nc.vars = some var →
        dod_name ∉ time_vars →
        arr.values.any isCftimeElem = true →
        arr.dtype = "object" →
        (∀ m, arr.mask = some m → m.length = arr.values.length) →
        List.lookup dod_name dod.vars = some vinfo →
        (dtype_map vinfo.dtype).isSome = true →
        ∃ msg, writeVars ds dod ((xr_name, dod_name) :: rest) nc = (nc, some msg)
          ∧ (msg = isnanErrMsg xr_name ∨ msg = cftimeErrMsg xr_name
             ∨ msg = astypeErrMsg xr_name))
  ∧ (∀ (ds : Dataset) (nc : NcFile) (dod : Dod) (config : Config) (nc2 : NcFile),
        write_dataset_to_file ds nc dod config = (nc2, none) →
        ∀ tname d, (tname, d) ∈ timesData (get_standardized_times ds.timeMs) →
        ∀ v, List.lookup tname nc.vars = some v →
        ∃ v2, List.lookup tname nc2.vars = some v2 ∧ v2.data = d) := by
  refine ⟨?_, ?_, ?_⟩
  · intro ds dod rest nc xr_name dod_name ht
    cases hx : List.lookup xr_name ds.vars with
    | none => rw [writeVars, hx]
    | some arr =>
      cases hn : List.lookup dod_name nc.vars with
      | none => rw [writeVars, hx, hn]
      | some var =>
        rw [writeVars, hx, hn]
        exact if_pos ht
  · intro ds dod rest nc xr_name dod_name arr var vinfo hx hn ht hcf hobj hml hdv hdt
    rw [writeVars_cons_processed ds dod rest nc xr_name dod_name arr var hx hn ht]
    cases hfv : var.fillValue with
    | some f =>
      have hnf : nanFill (some f) arr.dtype
          (maskFill (some f) arr.dtype arr.values arr.mask) = none := by
        rw [hobj]
        exact rfl
      rw [hnf]
      exact ⟨isnanErrMsg xr_name, rfl, Or.inl rfl⟩
    | none =>
      have hnf : nanFill none arr.dtype
          (maskFill none arr.dtype arr.values arr.mask)
          = some (maskFill none arr.dtype arr.values arr.mask) := rfl
      simp only [hnf]
      obtain ⟨eb, heb, hpb⟩ : ∃ e ∈ maskFill none arr.dtype arr.values arr.mask,
          isCftimeElem e = true ∨ e = Elem.str "?" := by
        obtain ⟨ec, hec, hic⟩ := List.any_eq_true.mp hcf
        cases ec with
        | num q => simp [isCftimeElem] at hic
        | nan => simp [isCftimeElem] at hic
        | str s2 => simp [isCftimeElem] at hic
        | cftime t =>
          cases hmk : arr.mask with
          | none => exact ⟨Elem.cftime t, hec, Or.inl rfl⟩
          | some mm =>
            rw [hobj]
            exact maskFill_object_bad_elem t arr.values mm hec (hml mm hmk)
      by_cases hg : cftimeGuard (maskFill none arr.dtype arr.values arr.mask) = true
      · refine ⟨cftimeErrMsg xr_name, ?_, Or.inr (Or.inl rfl)⟩
        rw [if_pos hg]
      · obtain ⟨target, htg⟩ := Option.isSome_iff_exists.mp hdt
        have hne : arr.dtype ≠ target := by
          rw [hobj]
          exact fun h => dtype_map_ne_object vinfo.dtype target htg h.symm
        have hconv : convertData dod dod_name arr.dtype
            (maskFill none arr.dtype arr.values arr.mask) = none := by
          simp only [convertData, hdv, htg]
          rw [if_pos hne]
          exact astypeList_none_of_mem target _ eb heb (castElem_bad target eb hpb)
        refine ⟨astypeErrMsg xr_name, ?_, Or.inr (Or.inr rfl)⟩
        rw [if_neg hg, hconv]
  · intro ds nc dod config nc2 hw tname d hmem v hv
    rw [write_dataset_to_file] at hw
    cases hwv : writeVars ds dod config.variable_mapping nc with
    | mk nc1 err =>
      rw [hwv] at hw
      cases err with
      | some e => exact absurd (congrArg Prod.snd hw) (by simp)
      | none =>
        have hnc2 : nc2 = { writeRadarMeta ds
            (writeTimes (get_standardized_times ds.timeMs) nc1) with
            isOpen := false } := (congrArg Prod.fst hw).symm
        have htn : tname ∈ time_vars := by
          fin_cases hmem <;> decide
        have h1 : List.lookup tname nc1.vars = some v := by
          have := writeVars_time_lookup ds dod tname htn config.variable_mapping nc
          rw [hwv] at this
          rw [this]
          exact hv
        obtain ⟨v2, hv2, hd2⟩ :=
          lookup_writeTimes (get_standardized_times ds.timeMs) nc1 tname d hmem v h1
        refine ⟨v2, ?_, hd2⟩
        rw [hnc2]
        show List.lookup tname (writeRadarMeta ds
          (writeTimes (get_standardized_times ds.timeMs) nc1)).vars = some v2
        rw [lookup_writeRadarMeta_time ds _ tname htn]
        exact hv2

/-- Witness for `writer_time_rules`: (1) a `time`-mapped entry is skipped;
(2) the run on `dsMask` — an object-dtype array holding a (masked) cftime
element, mapped to the fill-bound variable `refl` — fails hard with a type
error; (3) in the successful run on `dodTime` the output `time` variable
holds `[12000.0]`. -/
theorem writer_time_rules_witness :
    writeVars dsTime dodTime [("t", "time")] (create_nc_structure dodTime)
      = writeVars dsTime dodTime [] (create_nc_structure dodTime)
  ∧ (∃ msg, writeVars dsMask dodMask [("f", "refl")] (create_nc_structure dodMask)
        = (create_nc_structure dodMask, some msg)
      ∧ (msg = isnanErrMsg "f" ∨ msg = cftimeErrMsg "f" ∨ msg = astypeErrMsg "f"))
  ∧ ∃ v2, List.lookup "time"
        ((write_dataset_to_file dsTime (create_nc_structure dodTime) dodTime cfgEmpty).1).vars
          = some v2 ∧ v2.data = [Elem.num 12000] := by
  refine ⟨?_, ?_, ?_⟩
  · exact writer_time_rules.1 dsTime dodTime [] (create_nc_structure dodTime)
      "t" "time" (by decide)
  · exact writer_time_rules.2.1 dsMask dodMask [] (create_nc_structure dodMask)
      "f" "refl" arrMask
      (createVar { dtype := "float", dims := ["x"],
                   attrs := [("_FillValue", AttrValue.float (-9999))] })
      { dtype := "float", dims := ["x"],
        attrs := [("_FillValue", AttrValue.float (-9999))] }
      rfl rfl (by decide) (by decide) rfl
      (fun m hm => by injection hm with h; rw [← h]; rfl) rfl rfl
  · have h12000 : ("time", [Elem.num 12000])
        ∈ timesData (get_standardized_times dsTime.timeMs) := by
      have : (get_standardized_times dsTime.timeMs).time_value = [12000] := by
        show [((1705288800000 : ℚ)
          - (((86400 * Int.ediv (Int.ediv 1705288800000 1000) 86400 : Int)) : ℚ) * 1000)
            / 1000] = [12000]
        norm_num
      simp [timesData, this]
    exact writer_time_rules.2.2 dsTime (create_nc_structure dodTime) dodTime cfgEmpty
      (write_dataset_to_file dsTime (create_nc_structure dodTime) dodTime cfgEmpty).1
      rfl "time" [Elem.num 12000] h12000
      (createVar { dtype := "double", dims := ["time"], attrs := [] }) rfl

/-- C8 counterexample: the claim asserts the output handle is flushed and
closed on **every** path, including errors.  On the run over `dsCf` the
first-element cftime guard raises `TypeError` inside the value pass;
`_write_dataset_to_file` has no `try`/`finally` and its `nc.close()` sits
after the loop, so the raised error propagates with the handle still open. -/
theorem write_leaves_handle_open_counterexample :
    ((write_ds_to_nc envFix dsCf dodCf cfgCf).1).map NcFile.isOpen = some true
  ∧ (write_ds_to_nc envFix dsCf dodCf cfgCf).2 ≠ none := by
  constructor
  · rfl
  · intro h
    exact absurd h (by decide)

/-- The handle facts of the value pass alone: on success the returned handle
is closed; on error it keeps the open/closed state it was called with. -/
theorem write_dataset_to_file_handle (ds : Dataset) (nc : NcFile) (dod : Dod)
    (config : Config) :
    ((write_dataset_to_file ds nc dod config).2 = none →
        ((write_dataset_to_file ds nc dod config).1).isOpen = false)
  ∧ ((write_dataset_to_file ds nc dod config).2 ≠ none →
        ((write_dataset_to_file ds nc dod config).1).isOpen = nc.isOpen) := by
  rw [write_dataset_to_file]
  cases hwv : writeVars ds dod config.variable_mapping nc with
  | mk nc1 err =>
    have hopen := writeVars_isOpen ds dod config.variable_mapping nc
    rw [hwv] at hopen
    cases err with
    | some e => exact ⟨fun h => Option.noConfusion h, fun _ => hopen⟩
    | none => exact ⟨fun _ => rfl, fun h => (h rfl).elim⟩

/-- C8 (amended): errors raised before the structural pass create no handle;
on the success path the handle is closed at the end of the value pass; but an
error raised during the value pass leaves the handle open (there is no
`try`/`finally`). -/
theorem write_handle_discipline (env : Env) (ds : Dataset) (dod : Dod)
    (config : Config) :
    ((write_ds_to_nc env ds dod config).2 = none →
      ∃ nc, (write_ds_to_nc env ds dod config).1 = some nc ∧ nc.isOpen = false)
  ∧ (∀ nc, (write_ds_to_nc env ds dod config).1 = some nc →
      (write_ds_to_nc env ds dod config).2 ≠ none → nc.isOpen = true) := by
  rw [write_ds_to_nc]
  cases hg : (update_dod_globals env dod.globals config.entries).2 with
  | error missing =>
    exact ⟨fun h => Option.noConfusion h, fun nc hnc _ => Option.noConfusion hnc⟩
  | ok g =>
    have hd := write_dataset_to_file_handle ds (ncWithFields (dodResolved dod ds g))
      (dodResolved dod ds g) config
    constructor
    · intro h
      exact ⟨_, rfl, hd.1 h⟩
    · intro nc hnc herr
      have hn : nc = (write_dataset_to_file ds (ncWithFields (dodResolved dod ds g))
          (dodResolved dod ds g) config).1 := (Option.some.inj hnc).symm
      rw [hn, hd.2 herr]
      rfl

/-- Witness for `write_handle_discipline`: the successful run on `dodTime`
closes its handle; the failing run on `dsCf` leaves `ncAfterCfErr` open. -/
theorem write_handle_discipline_witness :
    (∃ nc, (write_ds_to_nc envFix dsTime dodTime cfgEmpty).1 = some nc
        ∧ nc.isOpen = false)
  ∧ ncAfterCfErr.isOpen = true :=
  ⟨(write_handle_discipline envFix dsTime dodTime cfgEmpty).1 rfl,
   (write_handle_discipline envFix dsCf dodCf cfgCf).2 ncAfterCfErr rfl
     (fun h => absurd h (by decide))⟩

end WriteOutNc
